import Mathlib

/-!
# Verification of the CRM front-end data-access layer

This file gives a shallow embedding, in Lean 4, of the client-side data
synchronization and authentication layer of the CRM front end
(`src/services/api.ts` and its callers).  The repository carries several
successive revisions of that module, separated by document markers; the
definitions below embed the revisions that the verified properties talk
about, keyed by the line ranges of the concatenated source file:

* revision A — lines 1–221 (query-parameter gateway, local-match login),
* revision B — lines 223–445 (same gateway, two-step local-match login),
* revision C — lines 447–750 (server-delegated login, validated session
  load, enveloped CRUD),
* revision D — lines 751–963 (server-delegated login that stores the
  server's user object verbatim),
* revision E — lines 965–1159 (path-style gateway, untrimmed
  case-sensitive local-match login).

JavaScript dynamic values are modelled by an explicit `Json` type; the
outcome of `JSON.parse` on a response body is modelled by `BodyContent`
(empty text, unparseable text, or parsed value), so that the embedding
never needs to re-implement a JSON parser: the source code only branches
on emptiness, parse success, and `Array.isArray`, which `BodyContent`
captures exactly.  Thrown JavaScript errors are modelled by `Except`.
-/

/-- JavaScript/JSON values, as produced by `JSON.parse`.  Objects are
association lists of string keys; the source never relies on duplicate
keys, and `JSON.parse` cannot produce them. -/
inductive Json where
  | null : Json
  | bool : Bool → Json
  | num : Int → Json
  | str : String → Json
  | arr : List Json → Json
  | obj : List (String × Json) → Json

/-- `Array.isArray`. -/
def Json.isArr : Json → Bool
  | .arr _ => true
  | _ => false

/-- JavaScript truthiness of a value (`if (v)`).  `null`, `false`, `0`
and the empty string are falsy; every object and array is truthy. -/
def Json.truthy : Json → Bool
  | .null => false
  | .bool b => b
  | .num n => n != 0
  | .str s => s != ""
  | .arr _ => true
  | .obj _ => true

/-- First-match lookup in an object's field list. -/
def lookupKey : List (String × Json) → String → Option Json
  | [], _ => none
  | (k₁, v) :: rest, k => if k₁ == k then some v else lookupKey rest k

/-- JavaScript property access `v.k`: `none` models `undefined`
(missing key, or access on a non-object primitive). -/
def jsGet (v : Json) (k : String) : Option Json :=
  match v with
  | .obj fields => lookupKey fields k
  | _ => none

/-- Truthiness of a possibly-`undefined` value (`if (v.k)`). -/
def truthyOpt : Option Json → Bool
  | none => false
  | some v => v.truthy

/-- Whether an object value carries the given key. -/
def Json.hasKey (k : String) (v : Json) : Bool :=
  (jsGet v k).isSome

/-- JavaScript property assignment / object-literal override
(`\x7b ...fields, k: v \x7d`): replaces the value at `k` in place if the
key is present (object keys are unique, so replacing the first
occurrence suffices), appends the key at the end otherwise. -/
def setKey : List (String × Json) → String → Json → List (String × Json)
  | [], k, v => [(k, v)]
  | (k₁, v₁) :: rest, k, v =>
      if k₁ == k then (k, v) :: rest else (k₁, v₁) :: setKey rest k v

/-- HTTP method of a gateway request (`apiRequest`'s `method`). -/
inductive Method where
  | GET : Method
  | POST : Method
deriving DecidableEq

instance : BEq Method := ⟨fun a b => decide (a = b)⟩

/-- The body text of an HTTP response, together with the outcome of
`JSON.parse` on it: `empty` models `rawResponseText === ''`,
`malformed raw` a non-empty text on which `JSON.parse` throws, and
`parsed raw v` a non-empty text parsing to the value `v`. -/
inductive BodyContent where
  | empty : BodyContent
  | malformed : String → BodyContent
  | parsed : String → Json → BodyContent

/-- The `rawResponseText` of a body. -/
def BodyContent.raw : BodyContent → String
  | .empty => ""
  | .malformed r => r
  | .parsed r _ => r

/-- The observable part of a `fetch` response used by `apiRequest`:
`ok` (status in the 2xx range), the numeric status, and the body. -/
structure FetchResponse where
  ok : Bool
  status : Nat
  body : BodyContent

/-- Classified gateway failures.  `remoteRequestFailed` embeds the
`Error` thrown on a non-success HTTP status (line 47), which carries the
sheet name, the status code and the raw response body in its message;
`malformedResponse` embeds the `SyntaxError` escaping `JSON.parse`
(line 58). -/
inductive ApiError where
  | remoteRequestFailed : String → Nat → String → ApiError
  | malformedResponse : String → ApiError

/-- A resolved gateway result: `undef` models returning `undefined`,
`json v` a structured value (including the `[]` fallbacks). -/
inductive JsValue where
  | undef : JsValue
  | json : Json → JsValue

/-- `sheetIdentifier.startsWith('/') ? sheetIdentifier.substring(1) :
sheetIdentifier` (line 22), modelled on the character list so that it
evaluates inside the kernel. -/
def stripSlash (sheetIdentifier : String) : String :=
  match sheetIdentifier.data with
  | '/' :: rest => ⟨rest⟩
  | _ => sheetIdentifier

/-- The repeated guard `method === 'GET' && (sheetName === 'Users' ||
sheetName === 'Leads')` (lines 51, 61, 71): a collection fetch. -/
def isCollectionGet (method : Method) (sheetName : String) : Bool :=
  method == .GET && (sheetName == "Users" || sheetName == "Leads")

/-- Response handling of revision A's `apiRequest` (lines 41–76), as a
pure function of the `fetch` response.  The `inner` value is the body of
the `try` block: non-`ok` throws `remoteRequestFailed`; a 204 status or
empty text yields `[]` for collection fetches and `undefined` otherwise;
a body that fails `JSON.parse` throws `malformedResponse`; a parsed
non-array on a collection fetch yields `[]`.  The outer `match` is the
`catch` block (lines 69–76): any thrown error is converted to `[]` for
collection fetches and re-thrown otherwise.  (The `.empty` arm inside
`inner` is unreachable: an empty text was already handled.) -/
def apiRequestHandle (sheetIdentifier : String) (method : Method)
    (resp : FetchResponse) : Except ApiError JsValue :=
  let sheetName := stripSlash sheetIdentifier
  let collGet := isCollectionGet method sheetName
  let inner : Except ApiError JsValue :=
    if !resp.ok then
      .error (.remoteRequestFailed sheetName resp.status resp.body.raw)
    else if resp.status == 204 || resp.body.raw == "" then
      if collGet then .ok (.json (.arr [])) else .ok .undef
    else
      match resp.body with
      | .empty => .ok .undef
      | .malformed rawText => .error (.malformedResponse rawText)
      | .parsed _ v =>
          if collGet && !v.isArr then .ok (.json (.arr []))
          else .ok (.json v)
  match inner with
  | .error e => if collGet then .ok (.json (.arr [])) else .error e
  | .ok v => .ok v

/-! ## Strings as JavaScript sees them

`String.prototype.trim` and `String.prototype.toLowerCase` are modelled
at the character-list level (the embedding's domain is the ASCII data
the application handles). -/

/-- `s.trim()`: strip leading and trailing whitespace. -/
def jsTrim (s : String) : String :=
  ⟨((s.data.dropWhile Char.isWhitespace).reverse.dropWhile
      Char.isWhitespace).reverse⟩

/-- `s.toLowerCase()`. -/
def jsToLower (s : String) : String :=
  ⟨s.data.map Char.toLower⟩

/-! ## The authentication resolver

A row of the Users sheet, as declared by the `User` interface of
`src/types.ts`: `id`, `name`, `email`, `role` are strings (`Role` is a
string enumeration) and `password` is optional. -/

/-- A stored identity row (`User` of `src/types.ts`). -/
structure UserRow where
  id : String
  name : String
  email : String
  role : String
  password : Option String
deriving DecidableEq

/-- An identity with the secret credential removed
(`AuthenticatedUser` of `src/types.ts`). -/
structure AuthUser where
  id : String
  name : String
  email : String
  role : String
deriving DecidableEq

/-- `const \x7b password, ...authenticatedUser \x7d = user` on a typed
`User` row. -/
def authOf (u : UserRow) : AuthUser :=
  ⟨u.id, u.name, u.email, u.role⟩

/-- `JSON.stringify(authenticatedUser)`, viewed as the structured value
written to `sessionStorage` (key order follows the field order of the
record). -/
def authUserToJson (a : AuthUser) : Json :=
  .obj [("id", .str a.id), ("name", .str a.name), ("email", .str a.email),
    ("role", .str a.role)]

/-- The `UserCredentials` argument of `login`: `email` is required,
`password` optional. -/
structure Credentials where
  email : String
  password : Option String
deriving DecidableEq

/-- `credentials.password ? credentials.password.trim() : ''`
(line 85): an absent or empty (falsy) password becomes `''`, any other
password is trimmed. -/
def processPassword : Option String → String
  | none => ""
  | some p => if p == "" then "" else jsTrim p

/-- The email half of the match predicate shared by revisions A and B:
`u.email && u.email.toLowerCase() === processedEmail.toLowerCase()`
(lines 102, 311), where `processedEmail` is the trimmed input email. -/
def emailMatches (processedEmail : String) (u : UserRow) : Bool :=
  u.email != "" && jsToLower u.email == jsToLower processedEmail

/-- Revision A `authService.login` (lines 82–115): fetches the Users
rows, then picks the first row whose email matches case-insensitively
*and* whose password equals the processed input password; any miss
throws `'Invalid email or password.'`.  The fetched rows are the
function's argument (the gateway always hands collection fetches an
array, see `apiRequestHandle`). -/
def loginA (users : List UserRow) (c : Credentials) :
    Except String AuthUser :=
  let processedEmail := jsTrim c.email
  let processedPassword := processPassword c.password
  match users.find? (fun u =>
      emailMatches processedEmail u && u.password == some processedPassword) with
  | some u => .ok (authOf u)
  | none => .error "Invalid email or password."

/-- Revision B `authService.login` (lines 296–344): finds the row by
email first (lines 311), then compares the stored password exactly
(line 315); both the no-such-email branch (line 342) and the
password-mismatch branch (line 338) throw the identical
`'Invalid email or password.'`. -/
def loginB (users : List UserRow) (c : Credentials) :
    Except String AuthUser :=
  let processedEmail := jsTrim c.email
  let processedPassword := processPassword c.password
  match users.find? (emailMatches processedEmail) with
  | some u =>
      if u.password == some processedPassword then .ok (authOf u)
      else .error "Invalid email or password."
  | none => .error "Invalid email or password."

/-- Revision E `authService.login` (lines 1038–1052): no trimming, no
case folding — `u.email === credentials.email && u.password ===
credentials.password` (line 1043), both compared by exact JavaScript
equality (two absent passwords compare equal). -/
def loginE (users : List UserRow) (c : Credentials) :
    Except String AuthUser :=
  match users.find? (fun u =>
      u.email == c.email && u.password == c.password) with
  | some u => .ok (authOf u)
  | none => .error "Invalid email or password."

/-- Revision D `authService.login` (lines 823–861): delegates matching
to the server.  On a non-`ok` status, an unparseable body, or a
response without truthy `success` and `user` fields, every path throws
`'Invalid email or password.'` (the `catch` at lines 857–860 collapses
all failures to that message).  On success the server's `data.user`
object is returned **verbatim** (`data.user as AuthenticatedUser`,
line 849) — no field is removed. -/
def loginD (resp : FetchResponse) : Except String Json :=
  if !resp.ok then .error "Invalid email or password."
  else
    match resp.body with
    | .parsed _ data =>
        match jsGet data "success", jsGet data "user" with
        | some s, some u =>
            if s.truthy && u.truthy then .ok u
            else .error "Invalid email or password."
        | _, _ => .error "Invalid email or password."
    | _ => .error "Invalid email or password."

/-- The value revision D's `login` writes to `sessionStorage`
(line 850): exactly the object it returns, when it succeeds. -/
def loginDSession (resp : FetchResponse) : Option Json :=
  (loginD resp).toOption

/-! ## The Users service (revision A, lines 127–185) -/

/-- `const \x7b password, ...userWithoutPassword \x7d = u` on a raw row
object: removes every `password` field.  (Rest-destructuring of a
non-object primitive yields an empty object in JavaScript.) -/
def stripPassword : Json → Json
  | .obj fields => .obj (fields.filter (fun kv => kv.1 != "password"))
  | _ => .obj []

/-- Revision A `userService.getUsers` (lines 128–139), as a function of
the gateway's result: a non-array degrades to `[]`, an array is mapped
through the password strip. -/
def getUsersA (fetched : JsValue) : List Json :=
  match fetched with
  | .json (.arr rows) => rows.map stripPassword
  | _ => []

/-- Revision A `userService.getUserById` (lines 140–153): a non-array
yields `undefined`; otherwise the first row whose `id` field equals the
requested id is returned, password stripped. -/
def getUserByIdA (fetched : JsValue) (userId : String) : Option Json :=
  match fetched with
  | .json (.arr rows) =>
      match rows.find? (fun u =>
          match jsGet u "id" with
          | some (.str s) => s == userId
          | _ => false) with
      | some u => some (stripPassword u)
      | none => none
  | _ => none

/-- The value revision A `userService.addUser` returns (lines 159–162):
the row the store answered with, password stripped. -/
def addUserResultA (addedUser : Json) : Json :=
  stripPassword addedUser

/-- The value revision A `userService.updateUser` returns
(lines 177–180): the row the store answered with, password stripped. -/
def updateUserResultA (updatedUserFromApi : Json) : Json :=
  stripPassword updatedUserFromApi

/-! ## The Leads service: update payloads -/

/-- A caller-supplied partial lead,
`Partial<Omit<Lead, 'id' | 'createdAt' | 'assignedToName'>>`
(note that `updatedAt` *is* admitted): every field optional;
`assignedToId` is nullable when present. -/
structure LeadPatch where
  name : Option String := none
  email : Option String := none
  phone : Option String := none
  source : Option String := none
  status : Option String := none
  assignedToId : Option (Option String) := none
  notes : Option String := none
  updatedAt : Option String := none

/-- An optional field's contribution to a spread object. -/
def optField (k : String) : Option String → List (String × Json)
  | none => []
  | some s => [(k, .str s)]

/-- A nullable optional field's contribution to a spread object. -/
def optFieldNullable (k : String) : Option (Option String) → List (String × Json)
  | none => []
  | some none => [(k, .null)]
  | some (some s) => [(k, .str s)]

/-- `\x7b ...leadData \x7d`: the fields a `LeadPatch` spreads into an
object literal, in declaration order. -/
def leadPatchFields (d : LeadPatch) : List (String × Json) :=
  optField "name" d.name ++ optField "email" d.email ++
    optField "phone" d.phone ++ optField "source" d.source ++
    optField "status" d.status ++
    optFieldNullable "assignedToId" d.assignedToId ++
    optField "notes" d.notes ++ optField "updatedAt" d.updatedAt

/-- A POST payload of shape `\x7b action, id, data \x7d`. -/
structure UpdatePost where
  action : String
  id : String
  data : List (String × Json)

/-- Revision A `leadService.updateLead` (lines 206–217): the outgoing
`data` is `\x7b ...leadData, updatedAt: new Date().toISOString() \x7d` —
the caller's fields spread first, then `updatedAt` overwritten with the
current instant (`now`). -/
def updateLeadA (leadId : String) (leadData : LeadPatch) (now : String) :
    UpdatePost :=
  ⟨"update", leadId, setKey (leadPatchFields leadData) "updatedAt" (.str now)⟩

/-- Revision C `leadService.updateLead` (lines 725–741): the outgoing
`data` is `\x7b ...leadData \x7d` verbatim — the comment at line 727
delegates `updatedAt` to the proxy worker, and the function never reads
the clock. -/
def updateLeadC (leadId : String) (leadData : LeadPatch) : UpdatePost :=
  ⟨"update", leadId, leadPatchFields leadData⟩

/-! ## The Users service: add and update payloads -/

/-- The argument of revision A `userService.updateUser` (line 164):
`Partial<Omit<User, 'id' | 'email'>> & \x7b passwordInput?: string \x7d`.
`Omit` removes only `id` and `email`, so the optional legacy `password`
field is still part of the static type and is copied by the
copy-everything-except-`passwordInput` loop (lines 167–171). -/
structure UserPatchA where
  name : Option String := none
  role : Option String := none
  password : Option String := none
  passwordInput : Option String := none

/-- The argument of revision C `userService.updateUser` (line 663):
`Partial<Omit<User, 'id' | 'email' | 'password'>> &
\x7b passwordInput?: string \x7d` — no direct `password` field. -/
structure UserPatchC where
  name : Option String := none
  role : Option String := none
  passwordInput : Option String := none

/-- Truthiness of an optional string (`if (userData.passwordInput)`):
absent and empty are both falsy. -/
def truthyStrOpt : Option String → Bool
  | none => false
  | some s => s != ""

/-- Revision A `userService.updateUser` (lines 164–181): the loop
copies every supplied field except `passwordInput` into `dataToUpdate`
(in declaration order), then `dataToUpdate.password = passwordInput`
runs only when `passwordInput` is truthy (lines 172–174). -/
def updateUserA (userId : String) (userData : UserPatchA) : UpdatePost :=
  let dataToUpdate := optField "name" userData.name ++
    optField "role" userData.role ++ optField "password" userData.password
  let dataToUpdate :=
    match userData.passwordInput with
    | some p => if p != "" then setKey dataToUpdate "password" (.str p)
        else dataToUpdate
    | none => dataToUpdate
  ⟨"update", userId, dataToUpdate⟩

/-- Revision C `userService.updateUser` (lines 663–675):
`dataToUpdate = \x7b ...restUserData \x7d` (everything but
`passwordInput`), then `dataToUpdate.password = passwordInput` only when
`passwordInput` is truthy (lines 667–669). -/
def updateUserC (userId : String) (userData : UserPatchC) : UpdatePost :=
  let dataToUpdate := optField "name" userData.name ++
    optField "role" userData.role
  let dataToUpdate :=
    match userData.passwordInput with
    | some p => if p != "" then setKey dataToUpdate "password" (.str p)
        else dataToUpdate
    | none => dataToUpdate
  ⟨"update", userId, dataToUpdate⟩

/-- The argument of `userService.addUser` (revision C, line 632):
`Omit<User, 'id' | 'password'> & \x7b passwordInput: string \x7d` — all
four fields are required by the static type (they may still be empty
strings at runtime). -/
structure AddUserInput where
  name : String
  email : String
  role : String
  passwordInput : String

/-- The `data` object revision C `userService.addUser` sends
(lines 633–640): `\x7b ...restUserData, password: passwordInput \x7d` —
the credential input renamed to the store's `password` field.  No
branch of `addUser` precedes this request: the service performs no
required-field validation. -/
def addUserPayloadC (d : AddUserInput) : List (String × Json) :=
  [("name", .str d.name), ("email", .str d.email), ("role", .str d.role),
    ("password", .str d.passwordInput)]

/-- The full store request revision C `userService.addUser` issues for
any input whatsoever: `POST Users \x7b action: 'add', data: ... \x7d`
(lines 637–640).  The function is total: there is no validation-error
path before the network call. -/
def addUserRequestC (d : AddUserInput) : String × String × List (String × Json) :=
  ("Users", "add", addUserPayloadC d)

/-- The fields `UsersPage.handleSaveUser` (the UI caller,
`src/unnamed/part_004` lines 47–56) destructures from its
`Partial<User> & \x7b passwordInput?: string \x7d` argument when saving
a *new* user. -/
structure SaveUserFields where
  name : Option String := none
  email : Option String := none
  role : Option String := none
  passwordInput : Option String := none

/-- The new-user branch of `UsersPage.handleSaveUser`
(`src/unnamed/part_004` lines 50–56): `if (!name || !email || !role ||
!passwordInput) throw new Error("Missing required fields for new
user.")`, else `userService.addUser(\x7b name, email, role,
passwordInput \x7d)`.  The `Except` value is the request handed to the
service, or the validation error thrown before any network call. -/
def handleSaveUserNew (d : SaveUserFields) :
    Except String (String × String × List (String × Json)) :=
  match d.name, d.email, d.role, d.passwordInput with
  | some n, some e, some r, some p =>
      if n != "" && e != "" && r != "" && p != "" then
        .ok (addUserRequestC ⟨n, e, r, p⟩)
      else .error "Missing required fields for new user."
  | _, _, _, _ => .error "Missing required fields for new user."

/-- Whether all four required add fields are truthy. -/
def addFieldsTruthy (d : SaveUserFields) : Bool :=
  truthyStrOpt d.name && truthyStrOpt d.email && truthyStrOpt d.role &&
    truthyStrOpt d.passwordInput

/-! ## The session store -/

/-- The raw value found in `sessionStorage` together with the outcome
of `JSON.parse` on it (same modelling as `BodyContent`, minus the
empty case, which `getItem` reports as absence). -/
inductive StoredVal where
  | malformed : String → StoredVal
  | parsed : String → Json → StoredVal

/-- The errors `getCurrentUser` can raise: the `SyntaxError` escaping
`JSON.parse` of a corrupted stored session. -/
inductive SessionErr where
  | parseError : String → SessionErr

/-- Revision A `authService.getCurrentUser` (lines 120–123):
`storedUser ? JSON.parse(storedUser) : null` — no guard at all.  A
stored value that fails to parse raises the parse error to the caller,
and the store is left untouched; a parsed value is returned without any
shape validation.  Result: (outcome, session store afterwards). -/
def getCurrentUserA (stored : Option StoredVal) :
    Except SessionErr (Option Json) × Option StoredVal :=
  match stored with
  | none => (.ok none, none)
  | some (.malformed raw) => (.error (.parseError raw), some (.malformed raw))
  | some (.parsed raw v) => (.ok (some v), some (.parsed raw v))

/-- The shape check of revision C `getCurrentUser` (line 588):
`user && user.id && user.email && user.role`. -/
def sessionValid (v : Json) : Bool :=
  v.truthy && truthyOpt (jsGet v "id") && truthyOpt (jsGet v "email") &&
    truthyOpt (jsGet v "role")

/-- Revision C `authService.getCurrentUser` (lines 582–604): a missing
value yields `null`; a value that fails to parse is caught, the store
is cleared and `null` returned (lines 596–600); a parsed value missing
any of `id`, `email`, `role` clears the store and yields `null`
(lines 591–595); only a valid shape is returned (store kept). -/
def getCurrentUserC (stored : Option StoredVal) :
    Except SessionErr (Option Json) × Option StoredVal :=
  match stored with
  | none => (.ok none, none)
  | some (.malformed _) => (.ok none, none)
  | some (.parsed raw v) =>
      if sessionValid v then (.ok (some v), some (.parsed raw v))
      else (.ok none, none)

/-! ## Helper lemmas -/

/-- Looking up the key just written by `setKey` yields the new value. -/
theorem lookupKey_setKey_self (fields : List (String × Json)) (k : String)
    (v : Json) : lookupKey (setKey fields k v) k = some v := by
  induction fields with
  | nil => simp [setKey, lookupKey]
  | cons kv rest ih =>
      obtain ⟨k₁, v₁⟩ := kv
      by_cases hk : (k₁ == k) = true
      · simp [setKey, lookupKey, hk]
      · simp [setKey, lookupKey, hk, ih]

/-- Filtering out a key removes it from lookup. -/
theorem lookupKey_filter_self (fields : List (String × Json)) (k : String) :
    lookupKey (fields.filter (fun kv => kv.1 != k)) k = none := by
  induction fields with
  | nil => rfl
  | cons kv rest ih =>
      obtain ⟨k₁, v₁⟩ := kv
      simp only [bne] at ih ⊢
      by_cases hk : (k₁ == k) = true
      · simp [List.filter_cons, hk, ih]
      · simp [List.filter_cons, hk, lookupKey, ih]

/-- The password strip leaves no `password` key behind, whatever the
gateway handed back. -/
theorem hasKey_stripPassword (v : Json) :
    Json.hasKey "password" (stripPassword v) = false := by
  cases v <;>
    simp [stripPassword, Json.hasKey, jsGet, lookupKey_filter_self, lookupKey]

/-! ## Claim C1 -/

/-- Claim C1 (confirmed): for every collection fetch (GET of the Users
or Leads sheet) whose HTTP status is a success, if the response is 204,
has an empty body, has a body that fails to parse, or parses to a value
that is not an array, the gateway returns the empty array — never
`undefined`, `null`, or an error (`apiRequest`, lines 50–76). -/
theorem c1_collection_get_degrades_to_empty
    (sheetId : String) (resp : FetchResponse)
    (hsheet : stripSlash sheetId = "Users" ∨ stripSlash sheetId = "Leads")
    (hok : resp.ok = true)
    (hdeg : resp.status = 204 ∨ resp.body.raw = "" ∨
      (∃ raw, resp.body = .malformed raw) ∨
      (∃ raw v, resp.body = .parsed raw v ∧ v.isArr = false)) :
    apiRequestHandle sheetId .GET resp = .ok (.json (.arr [])) := by
  have hcoll : isCollectionGet .GET (stripSlash sheetId) = true := by
    rcases hsheet with h | h <;> simp [isCollectionGet, h]
  obtain ⟨ok, status, body⟩ := resp
  simp only at hok
  subst hok
  rcases hdeg with h204 | hempty | ⟨raw, hmal⟩ | ⟨raw, v, hpar, harr⟩
  · simp only at h204
    subst h204
    simp [apiRequestHandle, hcoll]
  · simp only at hempty
    simp [apiRequestHandle, hcoll, hempty]
  · simp only at hmal
    subst hmal
    simp only [apiRequestHandle, hcoll, BodyContent.raw]
    split_ifs <;> simp
  · simp only at hpar
    subst hpar
    simp only [apiRequestHandle, hcoll, BodyContent.raw]
    split_ifs <;> simp_all [harr]

/-- Witness for C1: a 204 No Content success on `GET /Users` comes back
as the empty array. -/
theorem c1_witness :
    apiRequestHandle "/Users" .GET ⟨true, 204, .empty⟩ =
      .ok (.json (.arr [])) :=
  c1_collection_get_degrades_to_empty "/Users" ⟨true, 204, .empty⟩
    (Or.inl rfl) rfl (Or.inl rfl)

/-! ## Claim C2 -/

/-- Claim C2 is refuted by this counterexample: a `GET` of the Users
collection that receives HTTP 500 with a perfectly parseable *array*
body — so none of the degrade-to-empty conditions the claim lists
(no-content, parse failure, non-sequence shape) applies — still returns
the empty array instead of surfacing a `RemoteRequestFailed` error.
The `throw` at line 47 happens inside the `try` block, and the `catch`
at lines 69–76 swallows it for every collection fetch. -/
theorem c2_counterexample :
    apiRequestHandle "/Users" .GET
        ⟨false, 500, .parsed "[1]" (.arr [.num 1])⟩ =
      .ok (.json (.arr [])) := by
  rfl

/-- Claim C2 as amended: on a non-success HTTP status the gateway
raises `RemoteRequestFailed` carrying the status code and the raw body
for every non-collection request, but for collection fetches (GET of
Users or Leads) the catch-all degrade-to-empty policy also swallows
HTTP-status failures, returning the empty array. -/
theorem c2_amended (sheetId : String) (method : Method)
    (resp : FetchResponse) (hfail : resp.ok = false) :
    apiRequestHandle sheetId method resp =
      if isCollectionGet method (stripSlash sheetId) then
        .ok (.json (.arr []))
      else
        .error (.remoteRequestFailed (stripSlash sheetId) resp.status
          resp.body.raw) := by
  obtain ⟨ok, status, body⟩ := resp
  simp only at hfail
  subst hfail
  simp only [apiRequestHandle, Bool.not_false, if_true]

/-- Witness for C2 (amended): a failed `POST` surfaces the classified
error with status and raw body; a failed collection `GET` degrades. -/
theorem c2_amended_witness :
    apiRequestHandle "/Users" .POST ⟨false, 502, .malformed "bad gateway"⟩ =
      .error (.remoteRequestFailed "Users" 502 "bad gateway") := by
  have h := c2_amended "/Users" .POST ⟨false, 502, .malformed "bad gateway"⟩ rfl
  simpa using h

/-! ## Claim C3 -/

/-- A concrete server login response whose `user` row still carries its
`password` field (the remote row-store returns raw sheet rows). -/
def serverUserWithSecret : Json :=
  .obj [("id", .str "u1"), ("name", .str "Eve"), ("email", .str "eve@x.com"),
    ("role", .str "Admin"), ("password", .str "hunter2")]

/-- The fetch response delivering `serverUserWithSecret` to revision
D's `login`. -/
def loginDLeakResponse : FetchResponse :=
  ⟨true, 200, .parsed "loginbody"
    (.obj [("success", .bool true), ("user", serverUserWithSecret)])⟩

/-- Claim C3 is refuted by this counterexample: the server-delegated
`login` of revision D (lines 848–852) returns `data.user` verbatim and
writes the very same object to the session store; when the server's
row still carries its `password` field, the identity handed to the
caller and persisted in the session retains the secret credential. -/
theorem c3_counterexample :
    loginD loginDLeakResponse = .ok serverUserWithSecret ∧
      loginDSession loginDLeakResponse = some serverUserWithSecret ∧
      Json.hasKey "password" serverUserWithSecret = true := by
  exact ⟨rfl, rfl, rfl⟩

/-- Claim C3 as amended: every identity object returned by the Users
service's list, getById, add and update operations has the
secret-credential field removed, and so does the identity a
local-match login returns and serializes into the session store; the
server-delegated login of revision D, however, stores and returns the
server's user object unchanged, so its result is credential-free only
if the server already omitted the credential. -/
theorem c3_amended :
    (∀ fetched : JsValue, ∀ v ∈ getUsersA fetched,
      Json.hasKey "password" v = false)
    ∧ (∀ (fetched : JsValue) (uid : String) (u : Json),
      getUserByIdA fetched uid = some u → Json.hasKey "password" u = false)
    ∧ (∀ v : Json, Json.hasKey "password" (addUserResultA v) = false)
    ∧ (∀ v : Json, Json.hasKey "password" (updateUserResultA v) = false)
    ∧ (∀ (users : List UserRow) (c : Credentials) (a : AuthUser),
      loginB users c = .ok a →
        Json.hasKey "password" (authUserToJson a) = false) := by
  refine ⟨?_, ?_, ?_, ?_, ?_⟩
  · intro fetched v hv
    rcases fetched with _ | w
    · simp [getUsersA] at hv
    · cases w <;> simp [getUsersA] at hv
      obtain ⟨u, _, rfl⟩ := hv
      exact hasKey_stripPassword u
  · intro fetched uid u h
    rcases fetched with _ | w
    · simp [getUserByIdA] at h
    · cases w <;> simp [getUserByIdA] at h
      case arr rows =>
        rcases hfind : rows.find? (fun u =>
            match jsGet u "id" with
            | some (.str s) => s == uid
            | _ => false) with _ | u₀
        · rw [hfind] at h
          simp at h
        · rw [hfind] at h
          simp at h
          subst h
          exact hasKey_stripPassword u₀
  · intro v
    exact hasKey_stripPassword v
  · intro v
    exact hasKey_stripPassword v
  · intro users c a h
    rfl

/-- Witness for C3 (amended): `getUserById` on a concrete row with a
stored password returns the row with the password removed. -/
theorem c3_amended_witness :
    Json.hasKey "password" (Json.obj [("id", Json.str "u1")]) = false :=
  c3_amended.2.1
    (.json (.arr [.obj [("id", .str "u1"), ("password", .str "pw")]]))
    "u1" (.obj [("id", .str "u1")]) (by rfl)

/-! ## Claim C4 -/

/-- Claim C4 (confirmed, for the local-match resolver of revision B,
lines 311–343): a login whose email matches no stored identity and a
login whose email matches a stored identity but whose password differs
both fail with the very same error value,
`'Invalid email or password.'` — the resolver does not reveal which
half was wrong.  (The server-delegated revision C relays the server's
verdict through one single code path, lines 561–564, so the client
again cannot distinguish the two causes itself.) -/
theorem c4_uniform_invalid_credentials
    (users : List UserRow) (c₁ c₂ : Credentials) (u : UserRow)
    (h₁ : users.find? (emailMatches (jsTrim c₁.email)) = none)
    (h₂ : users.find? (emailMatches (jsTrim c₂.email)) = some u)
    (h₃ : u.password ≠ some (processPassword c₂.password)) :
    loginB users c₁ = .error "Invalid email or password."
    ∧ loginB users c₂ = .error "Invalid email or password."
    ∧ loginB users c₁ = loginB users c₂ := by
  have hz : (u.password == some (processPassword c₂.password)) = false := by
    exact beq_eq_false_iff_ne.2 h₃
  refine ⟨?_, ?_, ?_⟩ <;> simp [loginB, h₁, h₂, hz]

/-- Witness for C4: with one stored identity, a wrong email and a
right-email-wrong-password attempt produce identical errors. -/
theorem c4_witness :
    loginB [⟨"1", "Bob", "bob@x.com", "Admin", some "pw1"⟩]
        ⟨"nosuch@x.com", some "pw1"⟩ =
      .error "Invalid email or password."
    ∧ loginB [⟨"1", "Bob", "bob@x.com", "Admin", some "pw1"⟩]
        ⟨"bob@x.com", some "wrong"⟩ =
      .error "Invalid email or password."
    ∧ loginB [⟨"1", "Bob", "bob@x.com", "Admin", some "pw1"⟩]
        ⟨"nosuch@x.com", some "pw1"⟩ =
      loginB [⟨"1", "Bob", "bob@x.com", "Admin", some "pw1"⟩]
        ⟨"bob@x.com", some "wrong"⟩ :=
  c4_uniform_invalid_credentials
    [⟨"1", "Bob", "bob@x.com", "Admin", some "pw1"⟩]
    ⟨"nosuch@x.com", some "pw1"⟩ ⟨"bob@x.com", some "wrong"⟩
    ⟨"1", "Bob", "bob@x.com", "Admin", some "pw1"⟩
    (by rfl) (by rfl) (by decide)

/-! ## Claim C5 -/

/-- Claim C5 is refuted by this counterexample, on the login revision
the claim also cites (lines 1038–1051): with the identity
`alice@x.com / secret` stored, `login("alice@x.com", "secret")`
succeeds but `login("Alice@X.com", "secret")` and
`login(" alice@x.com ", "secret")` both fail — that revision neither
lower-cases nor trims the supplied email. -/
theorem c5_counterexample :
    loginE [⟨"1", "Alice", "alice@x.com", "Admin", some "secret"⟩]
        ⟨"alice@x.com", some "secret"⟩ =
      .ok ⟨"1", "Alice", "alice@x.com", "Admin"⟩
    ∧ loginE [⟨"1", "Alice", "alice@x.com", "Admin", some "secret"⟩]
        ⟨"Alice@X.com", some "secret"⟩ =
      .error "Invalid email or password."
    ∧ loginE [⟨"1", "Alice", "alice@x.com", "Admin", some "secret"⟩]
        ⟨" alice@x.com ", some "secret"⟩ =
      .error "Invalid email or password." := by
  exact ⟨rfl, rfl, rfl⟩

/-- Claim C5 as amended: the login of revision A (lines 82–104) does
trim the email and match it case-insensitively — two supplied emails
agreeing after trim and lower-casing give identical outcomes on every
stored collection — and its password comparison is exact: a successful
login pins the stored secret to be literally the processed (trimmed)
supplied password.  The superseded revision at lines 1038–1051,
however, compares both email and password by exact, untrimmed,
case-sensitive equality. -/
theorem c5_amended :
    (∀ (users : List UserRow) (e₁ e₂ : String) (p : Option String),
      jsToLower (jsTrim e₁) = jsToLower (jsTrim e₂) →
      loginA users ⟨e₁, p⟩ = loginA users ⟨e₂, p⟩)
    ∧ (∀ (users : List UserRow) (c : Credentials) (a : AuthUser),
      loginA users c = .ok a →
      ∃ u ∈ users, authOf u = a
        ∧ u.password = some (processPassword c.password)) := by
  constructor
  · intro users e₁ e₂ p h
    simp only [loginA, emailMatches, h]
  · intro users c a h
    simp only [loginA] at h
    rcases hfind : users.find? (fun u =>
        emailMatches (jsTrim c.email) u
          && u.password == some (processPassword c.password)) with _ | u
    · rw [hfind] at h
      simp at h
    · rw [hfind] at h
      simp at h
      have hmem := List.mem_of_find?_eq_some hfind
      have hp := List.find?_some hfind
      rw [Bool.and_eq_true] at hp
      exact ⟨u, hmem, h, eq_of_beq hp.2⟩

/-- Witness for C5 (amended): differently-cased spellings of the same
email behave identically under revision A's login. -/
theorem c5_amended_witness :
    loginA [⟨"1", "Alice", "alice@x.com", "Admin", some "secret"⟩]
        ⟨"Alice@X.com", some "secret"⟩ =
      loginA [⟨"1", "Alice", "alice@x.com", "Admin", some "secret"⟩]
        ⟨"alice@x.com", some "secret"⟩ :=
  c5_amended.1 [⟨"1", "Alice", "alice@x.com", "Admin", some "secret"⟩]
    "Alice@X.com" "alice@x.com" (some "secret") (by decide)

/-! ## Claim C6 -/

/-- Claim C6 is refuted by this counterexample, on the Leads update the
claim also cites (lines 725–741): that revision forwards the caller's
partial payload verbatim — it never reads the clock — so a caller
setting `updatedAt` explicitly has that very value sent to the store,
and it is not overridden by the instant of the call. -/
theorem c6_counterexample :
    (updateLeadC "L1"
        { updatedAt := some "2020-01-01T00:00:00.000Z" }).data =
      [("updatedAt", Json.str "2020-01-01T00:00:00.000Z")] := by
  rfl

/-- Claim C6 as amended: the Leads update of revision A
(lines 206–217) always overwrites `updatedAt` in the outgoing data with
the current instant, whatever partial payload the caller supplied —
including one that sets `updatedAt` explicitly; the revision at lines
725–741, however, sends the caller's partial payload unchanged and
delegates the timestamp to the proxy worker. -/
theorem c6_amended :
    (∀ (leadId : String) (d : LeadPatch) (now : String),
      lookupKey (updateLeadA leadId d now).data "updatedAt" =
        some (.str now))
    ∧ (∀ (leadId : String) (d : LeadPatch),
      (updateLeadC leadId d).data = leadPatchFields d) := by
  constructor
  · intro leadId d now
    exact lookupKey_setKey_self (leadPatchFields d) "updatedAt" (.str now)
  · intro leadId d
    rfl

/-! ## Claim C7 -/

/-- Claim C7 is refuted by this counterexample: a caller of the Users
update (revision C, lines 663–675) who *explicitly supplies* the
credential input as the empty string gets a payload with no credential
field at all — the inclusion check at line 667 is on truthiness, not
presence — so "contains the credential field if and only if the caller
explicitly supplies a new credential input" fails in the "if"
direction. -/
theorem c7_counterexample :
    lookupKey (updateUserC "u1" { passwordInput := some "" }).data
      "password" = none := by
  rfl

/-- Claim C7 as amended: the outgoing Users-update payload never
contains an `email` field (both cited revisions; email is immutable
post-creation), and it contains the credential field exactly when the
caller supplies a *non-empty* (truthy) credential input — for revision
A under the proviso that the legacy direct `password` field its
signature still admits is not used. -/
theorem c7_amended :
    (∀ (userId : String) (d : UserPatchA),
      lookupKey (updateUserA userId d).data "email" = none)
    ∧ (∀ (userId : String) (d : UserPatchC),
      lookupKey (updateUserC userId d).data "email" = none)
    ∧ (∀ (userId : String) (d : UserPatchC),
      (lookupKey (updateUserC userId d).data "password").isSome =
        truthyStrOpt d.passwordInput)
    ∧ (∀ (userId : String) (d : UserPatchA), d.password = none →
      (lookupKey (updateUserA userId d).data "password").isSome =
        truthyStrOpt d.passwordInput) := by
  refine ⟨?_, ?_, ?_, ?_⟩
  · intro userId d
    obtain ⟨n, r, pw, pi⟩ := d
    cases n <;> cases r <;> cases pw <;> rcases pi with _ | p
    all_goals try rfl
    all_goals
      by_cases hp : (p == "") = true <;>
        simp_all [updateUserA, optField, setKey, lookupKey]
  · intro userId d
    obtain ⟨n, r, pi⟩ := d
    cases n <;> cases r <;> rcases pi with _ | p
    all_goals try rfl
    all_goals
      by_cases hp : (p == "") = true <;>
        simp_all [updateUserC, optField, setKey, lookupKey]
  · intro userId d
    obtain ⟨n, r, pi⟩ := d
    cases n <;> cases r <;> rcases pi with _ | p
    all_goals try rfl
    all_goals
      by_cases hp : (p == "") = true <;>
        simp_all [updateUserC, optField, setKey, lookupKey, truthyStrOpt]
  · intro userId d hpw
    obtain ⟨n, r, pw, pi⟩ := d
    simp only at hpw
    subst hpw
    cases n <;> cases r <;> rcases pi with _ | p
    all_goals try rfl
    all_goals
      by_cases hp : (p == "") = true <;>
        simp_all [updateUserA, optField, setKey, lookupKey, truthyStrOpt]

/-- Witness for C7 (amended): a non-empty credential input on a
name-only patch yields a payload whose credential field is present. -/
theorem c7_amended_witness :
    (lookupKey (updateUserA "u1"
        { name := some "Bob", passwordInput := some "npw" }).data
      "password").isSome = truthyStrOpt (some "npw") :=
  c7_amended.2.2.2 "u1" { name := some "Bob", passwordInput := some "npw" }
    rfl

/-! ## Claim C8 -/

/-- Claim C8 is refuted by this counterexample: `userService.addUser`
performs no required-field validation — even with every one of name,
email, role and credential empty, the service builds and issues this
store request (revision C, lines 632–640; `addUserRequestC` is a total
function precisely because the source has no validation branch before
its `apiRequest` call).  The remote store *is* contacted, contradicting
"fails fast with a validation error before any network request". -/
theorem c8_counterexample :
    addUserRequestC ⟨"", "", "", ""⟩ =
      ("Users", "add",
        [("name", Json.str ""), ("email", Json.str ""),
          ("role", Json.str ""), ("password", Json.str "")]) := by
  rfl

/-- Claim C8 as amended: the required-field check lives one layer up,
in the UI caller `UsersPage.handleSaveUser` (`src/unnamed/part_004`,
lines 50–56): when any of name, email, role or credential is missing or
empty it throws `'Missing required fields for new user.'` *before*
invoking the service (hence before any network request); only when all
four are truthy does it hand the service the add request. -/
theorem c8_amended :
    (∀ d : SaveUserFields,
      (handleSaveUserNew d).isOk = addFieldsTruthy d)
    ∧ (∀ d : SaveUserFields, addFieldsTruthy d = false →
      handleSaveUserNew d = .error "Missing required fields for new user.")
    ∧ (∀ (n e r p : String), addFieldsTruthy ⟨some n, some e, some r, some p⟩ = true →
      handleSaveUserNew ⟨some n, some e, some r, some p⟩ =
        .ok (addUserRequestC ⟨n, e, r, p⟩)) := by
  refine ⟨?_, ?_, ?_⟩
  · intro d
    obtain ⟨n, e, r, p⟩ := d
    cases n <;> cases e <;> cases r <;> cases p <;>
      simp only [handleSaveUserNew, addFieldsTruthy, truthyStrOpt] <;>
      first
        | rfl
        | (rename_i n e r p
           by_cases hn : n = "" <;> by_cases he : e = "" <;>
             by_cases hr : r = "" <;> by_cases hp : p = "" <;>
             simp [hn, he, hr, hp, Except.isOk, Except.toBool])
        | simp [Except.isOk, Except.toBool]
  · intro d h
    obtain ⟨n, e, r, p⟩ := d
    cases n <;> cases e <;> cases r <;> cases p <;>
      simp_all [handleSaveUserNew, addFieldsTruthy, truthyStrOpt]
  · intro n e r p h
    simp_all [handleSaveUserNew, addFieldsTruthy, truthyStrOpt]

/-- Witness for C8 (amended): a save with the credential input missing
is rejected by the caller with the validation error, before any store
request exists. -/
theorem c8_amended_witness :
    handleSaveUserNew
        { name := some "Jane", email := some "jane@x.com",
          role := some "Admin" } =
      .error "Missing required fields for new user." :=
  c8_amended.2.1
    { name := some "Jane", email := some "jane@x.com", role := some "Admin" }
    rfl

/-! ## Claim C9 -/

/-- Claim C9 is refuted by this counterexample, on the session load the
claim also cites (revision A, lines 120–123): that revision runs
`JSON.parse` with no guard, so a stored session value that fails to
parse surfaces the parse error to the caller of `getCurrentUser`, and
the session store is *not* cleared. -/
theorem c9_counterexample :
    getCurrentUserA (some (.malformed "corrupt-session")) =
      (.error (.parseError "corrupt-session"),
        some (.malformed "corrupt-session")) := by
  rfl

/-- Claim C9 as amended: the guarded session load of revision C
(lines 582–604) never surfaces an error — an unparseable stored value
is caught, the store cleared and `null` returned; a parsed value
missing any of `id`, `email`, `role` likewise clears the store and
yields `null`; only a well-shaped identity is returned (and kept).
The unguarded load of revision A (lines 120–123) lacks all of this. -/
theorem c9_amended :
    (∀ stored : Option StoredVal, (getCurrentUserC stored).1.isOk = true)
    ∧ (∀ raw : String,
      getCurrentUserC (some (.malformed raw)) = (.ok none, none))
    ∧ (∀ (raw : String) (v : Json), sessionValid v = false →
      getCurrentUserC (some (.parsed raw v)) = (.ok none, none))
    ∧ (∀ (raw : String) (v : Json), sessionValid v = true →
      getCurrentUserC (some (.parsed raw v)) =
        (.ok (some v), some (.parsed raw v))) := by
  refine ⟨?_, ?_, ?_, ?_⟩
  · intro stored
    rcases stored with _ | sv
    · rfl
    · rcases sv with raw | ⟨raw, v⟩
      · rfl
      · simp only [getCurrentUserC]
        split <;> rfl
  · intro raw
    rfl
  · intro raw v h
    simp [getCurrentUserC, h]
  · intro raw v h
    simp [getCurrentUserC, h]

/-- Witness for C9 (amended): a stored session missing its `email` and
`role` fields is cleared and reported as absent, not as an error. -/
theorem c9_amended_witness :
    getCurrentUserC (some (.parsed "sess" (.obj [("id", .str "u1")]))) =
      (.ok none, none) :=
  c9_amended.2.2.1 "sess" (.obj [("id", .str "u1")]) (by rfl)

/-! ## Claim C10 -/

/-- Claim C10 (confirmed): supplying the empty string as the credential
input to the Users update behaves identically to supplying no
credential input at all — the inclusion check (`if
(userData.passwordInput)`, lines 172–174 and 667–669) is on truthiness,
not presence — and consequently the credential-input mechanism can
never place an empty password in the outgoing payload (for revision A
under the proviso that the legacy direct `password` field its signature
still admits is not used). -/
theorem c10_empty_credential_input :
    (∀ (userId : String) (d : UserPatchA),
      updateUserA userId { d with passwordInput := some "" } =
        updateUserA userId { d with passwordInput := none })
    ∧ (∀ (userId : String) (d : UserPatchC),
      updateUserC userId { d with passwordInput := some "" } =
        updateUserC userId { d with passwordInput := none })
    ∧ (∀ (userId : String) (d : UserPatchC),
      lookupKey (updateUserC userId d).data "password" ≠ some (.str ""))
    ∧ (∀ (userId : String) (d : UserPatchA), d.password = none →
      lookupKey (updateUserA userId d).data "password" ≠ some (.str "")) := by
  refine ⟨?_, ?_, ?_, ?_⟩
  · intro userId d
    rfl
  · intro userId d
    rfl
  · intro userId d
    obtain ⟨n, r, pi⟩ := d
    cases n <;> cases r <;> rcases pi with _ | p
    all_goals try simp [updateUserC, optField, lookupKey]
    all_goals
      by_cases hp : (p == "") = true <;>
        simp_all [updateUserC, optField, setKey, lookupKey]
  · intro userId d hpw
    obtain ⟨n, r, pw, pi⟩ := d
    simp only at hpw
    subst hpw
    cases n <;> cases r <;> rcases pi with _ | p
    all_goals try simp [updateUserA, optField, lookupKey]
    all_goals
      by_cases hp : (p == "") = true <;>
        simp_all [updateUserA, optField, setKey, lookupKey]

/-- Witness for C10: on a role-only patch with no legacy password
field, no credential input can smuggle an empty password into the
payload. -/
theorem c10_witness :
    lookupKey (updateUserA "u1"
        { role := some "Manager", passwordInput := some "" }).data
      "password" ≠ some (.str "") :=
  c10_empty_credential_input.2.2.2 "u1"
    { role := some "Manager", passwordInput := some "" } rfl
